import Mathlib

/-!
Shallow embedding of the bee-colony simulation (practica2): the shared hive
state `Colmena` (colmena.py), the agents and queen coordinator (agentes.py),
and a step relation over whole-system states covering every operation the
threads perform.  Machine integers are modelled as `ℤ`/`ℕ` (Python ints are
unbounded), floats as `ℚ`, the random draw of `random.uniform` as an explicit
parameter, and each Python method as a pure function from state to state.
-/

namespace Practica2

/-- Messages sent to the queen through `queue_reina` (dicts tagged by
"tipo" in the source). -/
inductive Mensaje where
  | muerte (rol id : String)
  | inactiva (rol id : String) (intentos : ℕ)
  | falta_alimento (rol id : String)
  | necesidad_nectar
  deriving DecidableEq, Repr

/-- Defaultdict-style additive update on an association list: add `d` to the
value at key `k`, inserting `(k, d)` at the end when the key is absent
(Python `defaultdict(int)` insertion-order semantics of `dic[k] += d`). -/
def updAdd : List (String × ℤ) → String → ℤ → List (String × ℤ)
  | [], k, d => [(k, d)]
  | (k', v) :: rest, k, d =>
      if k' = k then (k', v + d) :: rest else (k', v) :: updAdd rest k d

/-- Dict lookup with default `0` (Python `dic.get(k, 0)` / defaultdict read). -/
def getV : List (String × ℤ) → String → ℤ
  | [], _ => 0
  | (k', v) :: rest, k => if k' = k then v else getV rest k

/-- Dict lookup with default `0` for the ideal-roles table (`dic.get(rol, 0)`). -/
def getI : List (String × ℤ) → String → ℤ := getV

/-- Per-bee statistics update: `estadisticas_abejas[id][k] += d`. -/
def statAdd (f : String → String → ℕ) (id k : String) (d : ℕ) :
    String → String → ℕ :=
  fun i j => if i = id ∧ j = k then f i j + d else f i j

/-- Exact product of an integer and a rational, written through `Rat.divInt`
so that the kernel can evaluate it (see `qmul_eq_mul`). -/
def qmul (z : ℤ) (q : ℚ) : ℚ := Rat.divInt (z * q.num) q.den

/-- Exact product of two rationals, written through `Rat.divInt` so that the
kernel can evaluate it (see `qmulQ_eq_mul`). -/
def qmulQ (a b : ℚ) : ℚ := Rat.divInt (a.num * b.num) ((a.den : ℤ) * (b.den : ℤ))

/-- Python built-in `round` on a rational: round to nearest, ties to even.
The fractional part is written through `Rat.divInt` so that the kernel can
evaluate it (see `pyRound_frac_eq`). -/
def pyRound (q : ℚ) : ℤ :=
  let f := ⌊q⌋
  let frac := Rat.divInt (q.num - f * (q.den : ℤ)) (q.den : ℤ)
  if frac < mkRat 1 2 then f
  else if mkRat 1 2 < frac then f + 1
  else if f % 2 = 0 then f else f + 1

/-- The shared hive state (`Colmena.__init__`).  The cell semaphore
`threading.Semaphore(capacidad_celdas)` is its non-negative internal value
`sem_celdas`; `threading.Event`s are `Bool`s; both queues are FIFO lists. -/
structure Colmena where
  capacidad_celdas : ℕ
  capacidad_polen : ℕ
  num_larvas : ℕ
  celdas_ocupadas : ℤ
  sem_celdas : ℕ
  larvas_alimentadas : ℤ
  queue_nectar : List (ℕ × String)
  nectar_recolectado : ℕ
  nectar_almacenado : ℕ
  flores_visitadas : ℕ
  larvas_alimentadas_total : ℕ
  cambios_rol : ℕ
  ataques_detectados : ℕ
  ataques_neutralizados : ℕ
  estadisticas : String → String → ℕ
  event_dia : Bool
  event_ataque : Bool
  event_lluvia : Bool
  event_fin : Bool
  calidad_flores : ℚ
  abejas_por_rol : List (String × ℤ)
  queue_reina : List Mensaje

/-- Fresh hive state with the given capacities (`Colmena.__init__`): all
counters zero, the cell semaphore at full capacity, daytime set, queues
empty, flower quality 1.0. -/
def Colmena.init (capacidad_celdas capacidad_polen num_larvas : ℕ) : Colmena where
  capacidad_celdas := capacidad_celdas
  capacidad_polen := capacidad_polen
  num_larvas := num_larvas
  celdas_ocupadas := 0
  sem_celdas := capacidad_celdas
  larvas_alimentadas := 0
  queue_nectar := []
  nectar_recolectado := 0
  nectar_almacenado := 0
  flores_visitadas := 0
  larvas_alimentadas_total := 0
  cambios_rol := 0
  ataques_detectados := 0
  ataques_neutralizados := 0
  estadisticas := fun _ _ => 0
  event_dia := true
  event_ataque := false
  event_lluvia := false
  event_fin := false
  calidad_flores := 1
  abejas_por_rol := []
  queue_reina := []

/-- `Colmena.registrar_abeja`: increment the role census entry (the
`id_abeja` argument is unused in the source body). -/
def Colmena.registrar_abeja (c : Colmena) (rol : String) : Colmena :=
  { c with abejas_por_rol := updAdd c.abejas_por_rol rol 1 }

/-- `Colmena.cambiar_rol_abeja`: decrement the old role, increment the new
one, bump the global `cambios_rol` counter. -/
def Colmena.cambiar_rol_abeja (c : Colmena) (rol_anterior rol_nuevo : String) : Colmena :=
  { c with
    abejas_por_rol := updAdd (updAdd c.abejas_por_rol rol_anterior (-1)) rol_nuevo 1,
    cambios_rol := c.cambios_rol + 1 }

/-- `Colmena.agregar_nectar_cola`: append to the nectar queue and add the
amount to the global and per-bee collected-nectar counters. -/
def Colmena.agregar_nectar_cola (c : Colmena) (cantidad : ℕ) (id_abeja : String) : Colmena :=
  { c with
    queue_nectar := c.queue_nectar ++ [(cantidad, id_abeja)],
    nectar_recolectado := c.nectar_recolectado + cantidad,
    estadisticas := statAdd c.estadisticas id_abeja "nectar_recolectado" cantidad }

/-- `Colmena.obtener_nectar_cola`: non-blocking FIFO pop, `none` when empty. -/
def Colmena.obtener_nectar_cola (c : Colmena) : Option (ℕ × String) × Colmena :=
  match c.queue_nectar with
  | [] => (none, c)
  | x :: rest => (some x, { c with queue_nectar := rest })

/-- `Colmena.almacenar_nectar`: non-blocking semaphore acquire; on success
occupy one cell and credit the stored-nectar counters, else return false
with no mutation. -/
def Colmena.almacenar_nectar (c : Colmena) (cantidad : ℕ) (id_abeja : String) :
    Bool × Colmena :=
  if 0 < c.sem_celdas then
    (true,
     { c with
       sem_celdas := c.sem_celdas - 1,
       celdas_ocupadas := c.celdas_ocupadas + 1,
       nectar_almacenado := c.nectar_almacenado + cantidad,
       estadisticas := statAdd c.estadisticas id_abeja "nectar_almacenado" cantidad })
  else (false, c)

/-- `Colmena.consumir_nectar`: if a cell is occupied, free it (release the
semaphore) and credit the per-bee consumption stat, else false, no mutation. -/
def Colmena.consumir_nectar (c : Colmena) (id_abeja : String) : Bool × Colmena :=
  if 0 < c.celdas_ocupadas then
    (true,
     { c with
       celdas_ocupadas := c.celdas_ocupadas - 1,
       sem_celdas := c.sem_celdas + 1,
       estadisticas := statAdd c.estadisticas id_abeja "nectar_consumido" 1 })
  else (false, c)

/-- `Colmena.alimentar_larva`: first `consumir_nectar`; if that succeeded and
`larvas_alimentadas < num_larvas`, feed one larva; otherwise false.  Note the
source keeps the nectar consumption even when the larva check then fails. -/
def Colmena.alimentar_larva (c : Colmena) (id_abeja : String) : Bool × Colmena :=
  match c.consumir_nectar id_abeja with
  | (true, c1) =>
      if c1.larvas_alimentadas < (c1.num_larvas : ℤ) then
        (true,
         { c1 with
           larvas_alimentadas := c1.larvas_alimentadas + 1,
           larvas_alimentadas_total := c1.larvas_alimentadas_total + 1,
           estadisticas := statAdd c1.estadisticas id_abeja "larvas_alimentadas" 1 })
      else (false, c1)
  | (false, c1) => (false, c1)

/-- `Colmena.visitar_flor` with the value `u` drawn by
`random.uniform(1, capacidad_polen)` made explicit: at night return 0 with
no mutation; by day return `max 0 (min (round (u * calidad)) capacidad)` and
bump the flowers-visited counters. -/
def Colmena.visitar_flor (c : Colmena) (u : ℚ) (id_abeja : String) : ℤ × Colmena :=
  if c.event_dia = false then (0, c)
  else
    let polen := min (pyRound (qmulQ u c.calidad_flores)) (c.capacidad_polen : ℤ)
    (max 0 polen,
     { c with
       flores_visitadas := c.flores_visitadas + 1,
       estadisticas := statAdd c.estadisticas id_abeja "flores_visitadas" 1 })

/-- `Colmena.registrar_ataque`: set the attack event, count a detection. -/
def Colmena.registrar_ataque (c : Colmena) : Colmena :=
  { c with event_ataque := true, ataques_detectados := c.ataques_detectados + 1 }

/-- `Colmena.neutralizar_ataque`: clear the attack event, count the
neutralization globally and for the defending bee. -/
def Colmena.neutralizar_ataque (c : Colmena) (id_abeja : String) : Colmena :=
  { c with
    event_ataque := false,
    ataques_neutralizados := c.ataques_neutralizados + 1,
    estadisticas := statAdd c.estadisticas id_abeja "ataques_neutralizados" 1 }

/-- `Colmena.cambiar_clima`: set or clear the rain event and store the new
flower quality. -/
def Colmena.cambiar_clima (c : Colmena) (lluvia : Bool) (calidad : ℚ) : Colmena :=
  { c with event_lluvia := lluvia, calidad_flores := calidad }

/-- `Colmena.cambiar_ciclo_dia`: set or clear the daytime event. -/
def Colmena.cambiar_ciclo_dia (c : Colmena) (es_dia : Bool) : Colmena :=
  { c with event_dia := es_dia }

/-- `EventoAtaque` auto-expiry (eventos.py line 153): the attack event is
cleared directly, without counting a neutralization. -/
def Colmena.expirar_ataque (c : Colmena) : Colmena :=
  { c with event_ataque := false }

/-- `GestorEventos.run` end of simulation: set the one-shot stop event. -/
def Colmena.finalizar_simulacion (c : Colmena) : Colmena :=
  { c with event_fin := true }

/-- `Colmena.enviar_mensaje_reina`: FIFO append to the queen mailbox. -/
def Colmena.enviar_mensaje_reina (c : Colmena) (m : Mensaje) : Colmena :=
  { c with queue_reina := c.queue_reina ++ [m] }

/-- `Colmena.obtener_mensaje_reina`: FIFO pop, `none` on timeout/empty. -/
def Colmena.obtener_mensaje_reina (c : Colmena) : Option Mensaje × Colmena :=
  match c.queue_reina with
  | [] => (none, c)
  | m :: rest => (some m, { c with queue_reina := rest })

/-- One bee thread (`Abeja` and its subclasses).  `clase` is the concrete
Python class, fixed at construction and selecting which `trabajar` body the
thread runs; `rol` is the mutable role label used for the census, messages
and the day/night gate; `activa` models the thread still running its loop;
the two counters are the storer/nurse local retry counters. -/
structure AbejaData where
  clase : String
  rol : String
  activa : Bool
  intentos_vacios : ℕ
  intentos_sin_alimento : ℕ
  deriving DecidableEq, Repr

/-- Association-list lookup of a bee by id. -/
def lookupA : List (String × AbejaData) → String → Option AbejaData
  | [], _ => none
  | (k, a) :: rest, id => if k = id then some a else lookupA rest id

/-- Replace the data stored under a bee id (first occurrence). -/
def updAbeja : List (String × AbejaData) → String → AbejaData → List (String × AbejaData)
  | [], _, _ => []
  | (k, a) :: rest, id, b =>
      if k = id then (k, b) :: rest else (k, a) :: updAbeja rest id b

/-- Whole-system state: the shared hive, every bee thread ever created
(keyed by id), the queen's `abejas_activas` registry (insertion-ordered key
list, the values being shared references into `abejas`), and the queen's
`equilibrio_ideal` ratio table. -/
structure Sistema where
  colmena : Colmena
  abejas : List (String × AbejaData)
  registro : List String
  equilibrio_ideal : List (String × ℚ)

/-- The queen's default ideal role distribution (`Reina.__init__`). -/
def equilibrioPorDefecto : List (String × ℚ) :=
  [("recolectora", mkRat 2 5), ("almacenadora", mkRat 1 4),
   ("nodriza", mkRat 1 4), ("defensora", mkRat 1 10)]

/-- Initial system: a fresh hive and no bees (bootstrap then spawns the
initial population through steps). -/
def Sistema.init (capacidad_celdas capacidad_polen num_larvas : ℕ)
    (equilibrio : List (String × ℚ)) : Sistema where
  colmena := Colmena.init capacidad_celdas capacidad_polen num_larvas
  abejas := []
  registro := []
  equilibrio_ideal := equilibrio

/-- Creation of a bee (`Abeja.__init__` + optional `Reina.agregar_abeja`):
the constructor registers the role in the hive census; bootstrap and the
queen also put the new bee in the queen's registry. -/
def Sistema.spawn (s : Sistema) (id rol : String) (enRegistro : Bool) : Sistema :=
  { s with
    colmena := s.colmena.registrar_abeja rol,
    abejas := s.abejas ++ [(id, ⟨rol, rol, true, 0, 0⟩)],
    registro := if enRegistro then s.registro ++ [id] else s.registro }

/-- `Abeja.cambiar_rol` on the bee `id`: mutate the shared bee object's role
label and update the hive census via `cambiar_rol_abeja`. -/
def Sistema.cambiar_rol (s : Sistema) (id rol_nuevo : String) : Sistema :=
  match lookupA s.abejas id with
  | none => s
  | some a =>
      { s with
        abejas := updAbeja s.abejas id { a with rol := rol_nuevo },
        colmena := s.colmena.cambiar_rol_abeja a.rol rol_nuevo }

/-- `Recolectora.trabajar`: visit a flower (random draw `u`); if the yield is
positive, enqueue it for the storers. -/
def Sistema.recolectoraTrabaja (s : Sistema) (id : String) (u : ℚ) : Sistema :=
  let r := s.colmena.visitar_flor u id
  if 0 < r.1 then { s with colmena := (r.2).agregar_nectar_cola r.1.toNat id }
  else { s with colmena := r.2 }

/-- `Almacenadora.trabajar`: try to dequeue a nectar batch; if present, call
`almacenar_nectar` (result ignored by the source) and reset the empty-try
counter; otherwise count an empty try and after more than 10 report idle to
the queen and reset the counter. -/
def Sistema.almacenadoraTrabaja (s : Sistema) (id : String) : Sistema :=
  match lookupA s.abejas id with
  | none => s
  | some a =>
      match s.colmena.obtener_nectar_cola with
      | (some (cantidad, _), c1) =>
          { s with
            colmena := (c1.almacenar_nectar cantidad id).2,
            abejas := updAbeja s.abejas id { a with intentos_vacios := 0 } }
      | (none, c1) =>
          let n := a.intentos_vacios + 1
          if 10 < n then
            { s with
              colmena := c1.enviar_mensaje_reina (.inactiva a.rol id n),
              abejas := updAbeja s.abejas id { a with intentos_vacios := 0 } }
          else
            { s with
              colmena := c1,
              abejas := updAbeja s.abejas id { a with intentos_vacios := n } }

/-- `Nodriza.trabajar`: try to feed a larva; on success reset the hunger
counter, on failure count it and after more than 5 report food shortage to
the queen and reset the counter. -/
def Sistema.nodrizaTrabaja (s : Sistema) (id : String) : Sistema :=
  match lookupA s.abejas id with
  | none => s
  | some a =>
      match s.colmena.alimentar_larva id with
      | (true, c1) =>
          { s with
            colmena := c1,
            abejas := updAbeja s.abejas id { a with intentos_sin_alimento := 0 } }
      | (false, c1) =>
          let n := a.intentos_sin_alimento + 1
          if 5 < n then
            { s with
              colmena := c1.enviar_mensaje_reina (.falta_alimento a.rol id),
              abejas := updAbeja s.abejas id { a with intentos_sin_alimento := 0 } }
          else
            { s with
              colmena := c1,
              abejas := updAbeja s.abejas id { a with intentos_sin_alimento := n } }

/-- `Defensora.trabajar`: neutralize an active attack, else just patrol. -/
def Sistema.defensoraTrabaja (s : Sistema) (id : String) : Sistema :=
  if s.colmena.event_ataque then { s with colmena := s.colmena.neutralizar_ataque id }
  else s

/-- End of `Abeja.run` for bee `id`: the loop exits (lifespan elapsed, stop
signal observed, or an exception), and the `finally` block reports the death
to the queen unless the stop event is set.  The census is not touched. -/
def Sistema.muere (s : Sistema) (id : String) : Sistema :=
  match lookupA s.abejas id with
  | none => s
  | some a =>
      let s1 := { s with abejas := updAbeja s.abejas id { a with activa := false } }
      if s.colmena.event_fin then s1
      else { s1 with colmena := s1.colmena.enviar_mensaje_reina (.muerte a.rol id) }

/-- Deviation value: a finite rational or Python's `float('inf')`. -/
inductive Dev where
  | fin (q : ℚ)
  | inf
  deriving DecidableEq, Repr

/-- Strict comparison on deviations mirroring IEEE float comparison with
`+inf` (no NaN can arise here). -/
def Dev.lt : Dev → Dev → Bool
  | .fin a, .fin b => a < b
  | .fin _, .inf => true
  | .inf, _ => false

/-- First maximal element of a deviation table (Python `max(d, key=d.get)`
keeps the first key attaining the maximum, in insertion order). -/
def argmaxDev : List (String × Dev) → Option (String × Dev)
  | [] => none
  | x :: xs => some (xs.foldl (fun b y => if Dev.lt b.2 y.2 then y else b) x)

/-- First minimal element of a deviation table (Python `min(d, key=d.get)`). -/
def argminDev : List (String × Dev) → Option (String × Dev)
  | [] => none
  | x :: xs => some (xs.foldl (fun b y => if Dev.lt y.2 b.2 then y else b) x)

/-- `Reina.calcular_roles_ideales`: `round(total * porcentaje)` per tracked
role, in the ratio table's order. -/
def calcular_roles_ideales (equilibrio : List (String × ℚ)) (total : ℤ) :
    List (String × ℤ) :=
  equilibrio.map (fun p => (p.1, pyRound (qmul total p.2)))

/-- The deviation table built inside `Reina.identificar_desequilibrio`:
`(actual − ideal)/ideal`, with `+inf` when `ideal == 0 < actual` and `0`
when both are 0. -/
def tablaDiferencias (equilibrio : List (String × ℚ))
    (distribucion : List (String × ℤ)) (total : ℤ) : List (String × Dev) :=
  equilibrio.map (fun p =>
    let ideal := getI (calcular_roles_ideales equilibrio total) p.1
    let actual := getV distribucion p.1
    if ideal = 0 then (p.1, if 0 < actual then Dev.inf else Dev.fin 0)
    else (p.1, Dev.fin (Rat.divInt (actual - ideal) ideal)))

/-- Sum of the census values (`sum(distribucion_actual.values())`). -/
def sumVals (l : List (String × ℤ)) : ℤ := (l.map Prod.snd).sum

/-- `Reina.identificar_desequilibrio`: read the census; if the total is 0
return no pair; otherwise compute deviations, take the first-max role as
surplus and the first-min role as deficit, and return them only when the
surplus deviation exceeds 0.1 and the deficit deviation is below −0.1. -/
def Sistema.identificar_desequilibrio (s : Sistema) : Option String × Option String :=
  let distribucion := s.colmena.abejas_por_rol
  let total := sumVals distribucion
  if total = 0 then (none, none)
  else
    let diferencias := tablaDiferencias s.equilibrio_ideal distribucion total
    match argmaxDev diferencias, argminDev diferencias with
    | some exc, some defc =>
        if Dev.lt (.fin (mkRat 1 10)) exc.2 ∧ Dev.lt defc.2 (.fin (mkRat (-1) 10)) then
          (some exc.1, some defc.1)
        else (none, none)
    | _, _ => (none, none)

/-- The registry scan inside `Reina.reasignar_roles`: first registered bee
whose current role is the surplus role, in registry insertion order. -/
def buscarPorRol (abejas : List (String × AbejaData)) :
    List String → String → Option String
  | [], _ => none
  | id :: rest, exc =>
      match lookupA abejas id with
      | some a => if a.rol = exc then some id else buscarPorRol abejas rest exc
      | none => buscarPorRol abejas rest exc

/-- `Reina.reasignar_roles`: when an imbalance pair was identified, convert
the first registered bee of the surplus role to the deficit role; at most
one reassignment per invocation. -/
def Sistema.reasignar_roles (s : Sistema) : Bool × Sistema :=
  match s.identificar_desequilibrio with
  | (some exc, some defc) =>
      match buscarPorRol s.abejas s.registro exc with
      | some id => (true, s.cambiar_rol id defc)
      | none => (false, s)
  | _ => (false, s)

/-- `Reina.crear_abeja` (with the fresh id made explicit): if the role is in
the factory table, construct the bee (its constructor registers the census
entry), add it to the registry and start it; unknown roles create nothing. -/
def Sistema.crear_abeja (s : Sistema) (rol nuevoId : String) : Sistema :=
  if rol = "recolectora" ∨ rol = "almacenadora" ∨ rol = "nodriza" ∨ rol = "defensora" then
    { s with
      colmena := s.colmena.registrar_abeja rol,
      abejas := s.abejas ++ [(nuevoId, ⟨rol, rol, true, 0, 0⟩)],
      registro := s.registro ++ [nuevoId] }
  else s

/-- `Reina.procesar_mensaje` (the fresh replacement id made explicit):
death → prune the registry and create a same-role replacement; storer idle →
convert that bee to forager once production has started; nurse hunger →
forward a `necesidad_nectar` note to the mailbox. -/
def Sistema.procesar_mensaje (s : Sistema) (m : Mensaje) (nuevoId : String) : Sistema :=
  match m with
  | .muerte rol id =>
      ({ s with registro := s.registro.erase id }).crear_abeja rol nuevoId
  | .inactiva rol id _ =>
      if rol = "almacenadora" then
        if 0 < s.colmena.nectar_recolectado then
          if id ∈ s.registro then s.cambiar_rol id "recolectora" else s
        else s
      else s
  | .falta_alimento rol _ =>
      if rol = "nodriza" then
        { s with colmena := s.colmena.enviar_mensaje_reina .necesidad_nectar }
      else s
  | .necesidad_nectar => s

/-- The message-draining half of `Reina.trabajar`: pop at most one mailbox
message and dispatch it. -/
def Sistema.reinaProcesaMensaje (s : Sistema) (nuevoId : String) : Sistema :=
  match s.colmena.obtener_mensaje_reina with
  | (some m, c1) => ({ s with colmena := c1 }).procesar_mensaje m nuevoId
  | (none, c1) => { s with colmena := c1 }

/-- One transition of the whole system: one work unit, lifecycle event,
queen action or environment action by some thread.  Work units require the
bee to exist, be running, be of the matching Python class, pass the
day/night gate of `Abeja.run` (which tests the mutable `rol` label) and the
stop-event check of the loop condition. -/
inductive Step : Sistema → Sistema → Prop
  | spawn (s : Sistema) (id rol : String) (enRegistro : Bool)
      (hfresh : lookupA s.abejas id = none) :
      Step s (s.spawn id rol enRegistro)
  | recolectora (s : Sistema) (id : String) (u : ℚ) (a : AbejaData)
      (ha : lookupA s.abejas id = some a) (hact : a.activa = true)
      (hcl : a.clase = "recolectora")
      (hdia : s.colmena.event_dia = true ∨ a.rol = "defensora")
      (hfin : s.colmena.event_fin = false)
      (hu1 : 1 ≤ u) (hu2 : u ≤ (s.colmena.capacidad_polen : ℚ)) :
      Step s (s.recolectoraTrabaja id u)
  | almacenadora (s : Sistema) (id : String) (a : AbejaData)
      (ha : lookupA s.abejas id = some a) (hact : a.activa = true)
      (hcl : a.clase = "almacenadora")
      (hdia : s.colmena.event_dia = true ∨ a.rol = "defensora")
      (hfin : s.colmena.event_fin = false) :
      Step s (s.almacenadoraTrabaja id)
  | nodriza (s : Sistema) (id : String) (a : AbejaData)
      (ha : lookupA s.abejas id = some a) (hact : a.activa = true)
      (hcl : a.clase = "nodriza")
      (hdia : s.colmena.event_dia = true ∨ a.rol = "defensora")
      (hfin : s.colmena.event_fin = false) :
      Step s (s.nodrizaTrabaja id)
  | defensora (s : Sistema) (id : String) (a : AbejaData)
      (ha : lookupA s.abejas id = some a) (hact : a.activa = true)
      (hcl : a.clase = "defensora")
      (hfin : s.colmena.event_fin = false) :
      Step s (s.defensoraTrabaja id)
  | muere (s : Sistema) (id : String) (a : AbejaData)
      (ha : lookupA s.abejas id = some a) (hact : a.activa = true) :
      Step s (s.muere id)
  | reinaMensaje (s : Sistema) (nuevoId : String)
      (hfresh : lookupA s.abejas nuevoId = none)
      (hfin : s.colmena.event_fin = false) :
      Step s (s.reinaProcesaMensaje nuevoId)
  | reinaReasigna (s : Sistema)
      (hfin : s.colmena.event_fin = false) :
      Step s (s.reasignar_roles).2
  | clima (s : Sistema) (lluvia : Bool) (calidad : ℚ) :
      Step s { s with colmena := s.colmena.cambiar_clima lluvia calidad }
  | cicloDia (s : Sistema) (es_dia : Bool) :
      Step s { s with colmena := s.colmena.cambiar_ciclo_dia es_dia }
  | ataque (s : Sistema) :
      Step s { s with colmena := s.colmena.registrar_ataque }
  | ataqueExpira (s : Sistema) :
      Step s { s with colmena := s.colmena.expirar_ataque }
  | finSimulacion (s : Sistema) :
      Step s { s with colmena := s.colmena.finalizar_simulacion }

/-- States reachable from a freshly constructed system by any interleaving
of the threads' operations. -/
inductive Reachable : Sistema → Prop
  | init (capacidad_celdas capacidad_polen num_larvas : ℕ)
      (equilibrio : List (String × ℚ)) :
      Reachable (Sistema.init capacidad_celdas capacidad_polen num_larvas equilibrio)
  | step {s t : Sistema} : Reachable s → Step s t → Reachable t

/-- Scenario helper: `n` sequential `almacenar_nectar` calls of one unit each
by the same storer, collecting the returned booleans in call order. -/
def almacenarSeq : ℕ → Colmena → List Bool × Colmena
  | 0, c => ([], c)
  | n + 1, c =>
      let r := c.almacenar_nectar 1 "almacenadora_a"
      let rest := almacenarSeq n r.2
      (r.1 :: rest.1, rest.2)

/-- Scenario helper: `n` sequential `alimentar_larva` calls by the same
nurse, collecting the returned booleans in call order. -/
def alimentarSeq : ℕ → Colmena → List Bool × Colmena
  | 0, c => ([], c)
  | n + 1, c =>
      let r := c.alimentar_larva "nodriza_a"
      let rest := alimentarSeq n r.2
      (r.1 :: rest.1, rest.2)

/-- Total nectar waiting in `queue_nectar`. -/
def nectarEnCola (c : Colmena) : ℕ := (c.queue_nectar.map Prod.fst).sum

/-- Number of bee threads still running their loop (the Alive agents). -/
def vivas (s : Sistema) : ℕ := (s.abejas.filter (fun p => p.2.activa)).length

/-- The inductive invariant of the system: the occupied-cell count is
non-negative and complements the cell semaphore to exactly the capacity;
the fed-larvae count stays within `[0, num_larvas]`; stored nectar plus the
nectar still queued never exceeds collected nectar; and the census total
equals the number of bee threads ever created (dead ones included, because
nothing ever decrements the census). -/
def InvSistema (s : Sistema) : Prop :=
  0 ≤ s.colmena.celdas_ocupadas ∧
  s.colmena.celdas_ocupadas + (s.colmena.sem_celdas : ℤ) = (s.colmena.capacidad_celdas : ℤ) ∧
  0 ≤ s.colmena.larvas_alimentadas ∧
  s.colmena.larvas_alimentadas ≤ (s.colmena.num_larvas : ℤ) ∧
  s.colmena.nectar_almacenado + nectarEnCola s.colmena ≤ s.colmena.nectar_recolectado ∧
  sumVals s.colmena.abejas_por_rol = (s.abejas.length : ℤ)

/-- Scenario C system: census Forager 4, Storer 1, Nurse 1, Guard 1 under
the default ratio table, every bee registered with the queen. -/
def sysC6 : Sistema :=
  ((((((((Sistema.init 100 5 20 equilibrioPorDefecto).spawn
    "r1" "recolectora" true).spawn "r2" "recolectora" true).spawn
    "r3" "recolectora" true).spawn "r4" "recolectora" true).spawn
    "a1" "almacenadora" true).spawn "n1" "nodriza" true).spawn
    "d1" "defensora" true)

/-- A system with one spawned forager whose thread then terminates: its
census entry survives its death. -/
def sysMuerta : Sistema :=
  ((Sistema.init 10 5 20 equilibrioPorDefecto).spawn "a" "recolectora" true).muere "a"

/-- A hive with `num_larvas = 1`, two stored nectar units and one larva
already fed: the next `alimentar_larva` fails yet consumes a cell. -/
def colLlena : Colmena :=
  (((((Colmena.init 10 5 1).almacenar_nectar 1 "s1").2).almacenar_nectar 1 "s1").2.alimentar_larva
    "n1").2

/-- A system with one registered nurse, about to process her death message. -/
def sysNodriza : Sistema :=
  (Sistema.init 10 5 20 equilibrioPorDefecto).spawn "n1" "nodriza" true

/-- A perfectly balanced system (census Forager 2, Storer 1, Nurse 1 over
total 4, ideals 2/1/1/0): every deviation is exactly 0. -/
def sysEquilibrado : Sistema :=
  ((((Sistema.init 100 5 20 equilibrioPorDefecto).spawn
    "r1" "recolectora" true).spawn "r2" "recolectora" true).spawn
    "a1" "almacenadora" true).spawn "n1" "nodriza" true

/-- A system with zero cell capacity, a forager and a storer, after the
forager enqueued one flower visit: the storer's next dequeue must drop the
batch. -/
def sysSinCeldas : Sistema :=
  (((Sistema.init 0 5 20 equilibrioPorDefecto).spawn "r1" "recolectora" true).spawn
    "a1" "almacenadora" true).recolectoraTrabaja "r1" 3

/-! Bridge lemmas: the `Rat.divInt`-phrased arithmetic used in the
definitions agrees with the ordinary field operations on `ℚ`. -/

theorem qmul_eq_mul (z : ℤ) (q : ℚ) : qmul z q = (z : ℚ) * q := by
  rw [qmul, Rat.divInt_eq_div]
  push_cast
  rw [mul_div_assoc, Rat.num_div_den]

theorem qmulQ_eq_mul (a b : ℚ) : qmulQ a b = a * b := by
  rw [qmulQ, Rat.divInt_eq_div]
  push_cast
  rw [← div_mul_div_comm, Rat.num_div_den, Rat.num_div_den]

theorem pyRound_frac_eq (q : ℚ) :
    Rat.divInt (q.num - ⌊q⌋ * (q.den : ℤ)) (q.den : ℤ) = q - (⌊q⌋ : ℚ) := by
  have hden : ((q.den : ℤ) : ℚ) ≠ 0 := by
    exact_mod_cast (Nat.cast_ne_zero (R := ℚ)).mpr q.den_nz
  rw [Rat.divInt_eq_div]
  push_cast
  rw [sub_div, Rat.num_div_den, mul_div_assoc, div_self (by exact_mod_cast hden), mul_one]

/-! Association-list bookkeeping lemmas. -/

theorem sumVals_updAdd (l : List (String × ℤ)) (k : String) (d : ℤ) :
    sumVals (updAdd l k d) = sumVals l + d := by
  induction l with
  | nil => simp [updAdd, sumVals]
  | cons p rest ih =>
      obtain ⟨k', v⟩ := p
      by_cases h : k' = k <;> simp [updAdd, h, sumVals] at ih ⊢ <;> omega

theorem getV_updAdd_self (l : List (String × ℤ)) (k : String) (d : ℤ) :
    getV (updAdd l k d) k = getV l k + d := by
  induction l with
  | nil => simp [updAdd, getV]
  | cons p rest ih =>
      obtain ⟨k', v⟩ := p
      by_cases h : k' = k <;> simp [updAdd, getV, h, ih]

theorem length_updAbeja (l : List (String × AbejaData)) (id : String) (b : AbejaData) :
    (updAbeja l id b).length = l.length := by
  induction l with
  | nil => rfl
  | cons p rest ih =>
      obtain ⟨k, a⟩ := p
      by_cases h : k = id <;> simp [updAbeja, h, ih]

theorem foldl_choice_mem {α : Type _} (f : α → α → Bool) (l : List α) (a : α) :
    l.foldl (fun b y => if f b y then y else b) a = a ∨
    l.foldl (fun b y => if f b y then y else b) a ∈ l := by
  induction l generalizing a with
  | nil => left; rfl
  | cons x xs ih =>
      simp only [List.foldl_cons]
      by_cases h : f a x
      · simp only [h, if_pos]
        rcases ih x with h1 | h2
        · right; rw [h1]; exact List.mem_cons_self _ _
        · right; exact List.mem_cons_of_mem _ h2
      · simp only [h, if_neg, Bool.false_eq_true, not_false_iff]
        rcases ih a with h1 | h2
        · left; exact h1
        · right; exact List.mem_cons_of_mem _ h2

theorem argmaxDev_mem {l : List (String × Dev)} {x : String × Dev}
    (h : argmaxDev l = some x) : x ∈ l := by
  cases l with
  | nil => simp [argmaxDev] at h
  | cons y ys =>
      simp only [argmaxDev, Option.some.injEq] at h
      rcases foldl_choice_mem (fun b z => Dev.lt b.2 z.2) ys y with h1 | h2
      · rw [h1] at h
        rw [← h]
        exact List.mem_cons_self _ _
      · rw [h] at h2
        exact List.mem_cons_of_mem _ h2

/-- Full case analysis of `alimentar_larva`: with no occupied cell it is a
no-op returning false; with a cell and room for a larva it feeds one larva
and consumes the cell; with a cell but larvae at capacity it still consumes
the cell (and credits the consumption stat) yet returns false. -/
theorem alimentar_larva_spec (c : Colmena) (id : String) :
    (¬ 0 < c.celdas_ocupadas ∧ c.alimentar_larva id = (false, c)) ∨
    (0 < c.celdas_ocupadas ∧ c.larvas_alimentadas < (c.num_larvas : ℤ) ∧
      c.alimentar_larva id = (true,
        { c with
          celdas_ocupadas := c.celdas_ocupadas - 1,
          sem_celdas := c.sem_celdas + 1,
          larvas_alimentadas := c.larvas_alimentadas + 1,
          larvas_alimentadas_total := c.larvas_alimentadas_total + 1,
          estadisticas := statAdd (statAdd c.estadisticas id "nectar_consumido" 1) id
            "larvas_alimentadas" 1 })) ∨
    (0 < c.celdas_ocupadas ∧ ¬ c.larvas_alimentadas < (c.num_larvas : ℤ) ∧
      c.alimentar_larva id = (false,
        { c with
          celdas_ocupadas := c.celdas_ocupadas - 1,
          sem_celdas := c.sem_celdas + 1,
          estadisticas := statAdd c.estadisticas id "nectar_consumido" 1 })) := by
  by_cases hc : 0 < c.celdas_ocupadas
  · by_cases hl : c.larvas_alimentadas < (c.num_larvas : ℤ)
    · refine Or.inr (Or.inl ⟨hc, hl, ?_⟩)
      simp only [Colmena.alimentar_larva, Colmena.consumir_nectar, if_pos hc]
      rw [if_pos hl]
    · refine Or.inr (Or.inr ⟨hc, hl, ?_⟩)
      simp only [Colmena.alimentar_larva, Colmena.consumir_nectar, if_pos hc]
      rw [if_neg hl]
  · refine Or.inl ⟨hc, ?_⟩
    simp only [Colmena.alimentar_larva, Colmena.consumir_nectar, if_neg hc]

theorem invSistema_init (cc cp nl : ℕ) (eq : List (String × ℚ)) :
    InvSistema (Sistema.init cc cp nl eq) := by
  refine ⟨?_, ?_, ?_, ?_, ?_, ?_⟩ <;>
    simp [Sistema.init, Colmena.init, sumVals, nectarEnCola]

theorem invSistema_step {s t : Sistema} (hs : InvSistema s) (st : Step s t) :
    InvSistema t := by
  obtain ⟨h1, h2, h3, h4, h5, h6⟩ := hs
  cases st with
  | spawn id rol enRegistro hfresh =>
      refine ⟨h1, h2, h3, h4, h5, ?_⟩
      simp only [Sistema.spawn, Colmena.registrar_abeja, sumVals_updAdd, List.length_append,
        List.length_cons, List.length_nil]
      omega
  | recolectora id u a ha hact hcl hdia hfin hu1 hu2 =>
      simp only [Sistema.recolectoraTrabaja, Colmena.visitar_flor]
      split
      · split
        · rename_i hpos
          simp at hpos
        · exact ⟨h1, h2, h3, h4, h5, h6⟩
      · split
        · refine ⟨h1, h2, h3, h4, ?_, h6⟩
          simp only [Colmena.agregar_nectar_cola, nectarEnCola, List.map_append,
            List.sum_append, List.map_cons, List.sum_cons, List.map_nil, List.sum_nil]
          simp only [nectarEnCola] at h5
          omega
        · exact ⟨h1, h2, h3, h4, h5, h6⟩
  | almacenadora id a ha hact hcl hdia hfin =>
      simp only [Sistema.almacenadoraTrabaja, ha]
      rcases hq : s.colmena.queue_nectar with _ | ⟨⟨cant, orig⟩, resto⟩
      · simp only [Colmena.obtener_nectar_cola, hq]
        split
        · refine ⟨h1, h2, h3, h4, ?_, ?_⟩
          · simpa [Colmena.enviar_mensaje_reina, nectarEnCola] using h5
          · simpa [Colmena.enviar_mensaje_reina, length_updAbeja] using h6
        · exact ⟨h1, h2, h3, h4, h5, by simpa [length_updAbeja] using h6⟩
      · simp only [Colmena.obtener_nectar_cola, hq, Colmena.almacenar_nectar]
        simp only [nectarEnCola, hq, List.map_cons, List.sum_cons] at h5
        split
        · refine ⟨?_, ?_, h3, h4, ?_, by simpa [length_updAbeja] using h6⟩
          · dsimp only
            omega
          · dsimp only
            omega
          · dsimp only [nectarEnCola]
            omega
        · refine ⟨h1, h2, h3, h4, ?_, by simpa [length_updAbeja] using h6⟩
          dsimp only [nectarEnCola]
          omega
  | nodriza id a ha hact hcl hdia hfin =>
      simp only [Sistema.nodrizaTrabaja, ha]
      rcases alimentar_larva_spec s.colmena id with ⟨hc, heq⟩ | ⟨hc, hl, heq⟩ | ⟨hc, hl, heq⟩
      · simp only [heq]
        split
        · exact ⟨h1, h2, h3, h4,
            by simpa [Colmena.enviar_mensaje_reina, nectarEnCola] using h5,
            by simpa [Colmena.enviar_mensaje_reina, length_updAbeja] using h6⟩
        · exact ⟨h1, h2, h3, h4, h5, by simpa [length_updAbeja] using h6⟩
      · simp only [heq]
        refine ⟨?_, ?_, ?_, ?_, by simpa [nectarEnCola] using h5,
          by simpa [length_updAbeja] using h6⟩ <;>
          · dsimp only
            push_cast
            omega
      · simp only [heq]
        split
        · refine ⟨?_, ?_, h3, h4,
            by simpa [Colmena.enviar_mensaje_reina, nectarEnCola] using h5,
            by simpa [Colmena.enviar_mensaje_reina, length_updAbeja] using h6⟩ <;>
            · dsimp only [Colmena.enviar_mensaje_reina]
              push_cast
              omega
        · refine ⟨?_, ?_, h3, h4, by simpa [nectarEnCola] using h5,
            by simpa [length_updAbeja] using h6⟩ <;>
            · dsimp only
              push_cast
              omega
  | defensora id a ha hact hcl hfin =>
      simp only [Sistema.defensoraTrabaja]
      split
      · exact ⟨h1, h2, h3, h4, by simpa [Colmena.neutralizar_ataque, nectarEnCola] using h5, h6⟩
      · exact ⟨h1, h2, h3, h4, h5, h6⟩
  | muere id a ha hact =>
      simp only [Sistema.muere, ha]
      split
      · exact ⟨h1, h2, h3, h4, h5, by simpa [length_updAbeja] using h6⟩
      · exact ⟨h1, h2, h3, h4,
          by simpa [Colmena.enviar_mensaje_reina, nectarEnCola] using h5,
          by simpa [Colmena.enviar_mensaje_reina, length_updAbeja] using h6⟩
  | reinaMensaje nuevoId hfresh hfin =>
      simp only [Sistema.reinaProcesaMensaje]
      rcases hq : s.colmena.queue_reina with _ | ⟨m, resto⟩
      · simp only [Colmena.obtener_mensaje_reina, hq]
        exact ⟨h1, h2, h3, h4, h5, h6⟩
      · simp only [Colmena.obtener_mensaje_reina, hq]
        cases m with
        | muerte rol idm =>
            simp only [Sistema.procesar_mensaje, Sistema.crear_abeja]
            split
            · refine ⟨h1, h2, h3, h4, ?_, ?_⟩
              · simpa [Colmena.registrar_abeja, nectarEnCola] using h5
              · simp only [Colmena.registrar_abeja, sumVals_updAdd, List.length_append,
                  List.length_cons, List.length_nil]
                omega
            · exact ⟨h1, h2, h3, h4, h5, h6⟩
        | inactiva rol idm n =>
            simp only [Sistema.procesar_mensaje]
            split
            · split
              · split
                · simp only [Sistema.cambiar_rol]
                  rcases hl : lookupA s.abejas idm with _ | b
                  · simp only [hl]
                    exact ⟨h1, h2, h3, h4, h5, h6⟩
                  · simp only [hl, Colmena.cambiar_rol_abeja]
                    refine ⟨h1, h2, h3, h4, h5, ?_⟩
                    simp only [sumVals_updAdd, length_updAbeja]
                    omega
                · exact ⟨h1, h2, h3, h4, h5, h6⟩
              · exact ⟨h1, h2, h3, h4, h5, h6⟩
            · exact ⟨h1, h2, h3, h4, h5, h6⟩
        | falta_alimento rol idm =>
            simp only [Sistema.procesar_mensaje]
            split
            · exact ⟨h1, h2, h3, h4,
                by simpa [Colmena.enviar_mensaje_reina, nectarEnCola] using h5, h6⟩
            · exact ⟨h1, h2, h3, h4, h5, h6⟩
        | necesidad_nectar =>
            simp only [Sistema.procesar_mensaje]
            exact ⟨h1, h2, h3, h4, h5, h6⟩
  | reinaReasigna hfin =>
      simp only [Sistema.reasignar_roles]
      split
      · split
        · simp only [Sistema.cambiar_rol]
          rcases hl : lookupA s.abejas _ with _ | b
          · simp only [hl]
            exact ⟨h1, h2, h3, h4, h5, h6⟩
          · simp only [hl, Colmena.cambiar_rol_abeja]
            refine ⟨h1, h2, h3, h4, h5, ?_⟩
            simp only [sumVals_updAdd, length_updAbeja]
            omega
        · exact ⟨h1, h2, h3, h4, h5, h6⟩
      · exact ⟨h1, h2, h3, h4, h5, h6⟩
  | clima lluvia calidad =>
      exact ⟨h1, h2, h3, h4, h5, h6⟩
  | cicloDia es_dia =>
      exact ⟨h1, h2, h3, h4, h5, h6⟩
  | ataque =>
      exact ⟨h1, h2, h3, h4, h5, h6⟩
  | ataqueExpira =>
      exact ⟨h1, h2, h3, h4, h5, h6⟩
  | finSimulacion =>
      exact ⟨h1, h2, h3, h4, h5, h6⟩

theorem reachable_inv {s : Sistema} (h : Reachable s) : InvSistema s := by
  induction h with
  | init cc cp nl eq => exact invSistema_init cc cp nl eq
  | step hr st ih => exact invSistema_step ih st

/-- Claim C1, as stated, is false on the code: the Alive→Dead transition in
`Abeja.run` never decrements `abejas_por_rol` (its `finally` block only
sends a message), so after spawning one forager and letting it die the
census sums to 1 while 0 agents are alive. -/
theorem censo_vivas_contraejemplo :
    Reachable sysMuerta ∧
    sumVals sysMuerta.colmena.abejas_por_rol = 1 ∧
    vivas sysMuerta = 0 ∧
    sumVals sysMuerta.colmena.abejas_por_rol ≠ (vivas sysMuerta : ℤ) :=
  ⟨Reachable.step
      (Reachable.step (Reachable.init 10 5 20 equilibrioPorDefecto)
        (Step.spawn _ "a" "recolectora" true (by decide)))
      (Step.muere _ "a" ⟨"recolectora", "recolectora", true, 0, 0⟩ (by decide) (by decide)),
    by decide, by decide, by decide⟩

/-- Claim C1 (amended): registering an agent and changing a role do preserve
the relation between the census and the agent population, but the
Alive→Dead transition does not decrement the census; what holds in every
reachable state is that Σ `abejas_por_rol` equals the number of agent
threads ever created (alive or dead), not the number currently alive. -/
theorem censo_cuenta_creadas (s : Sistema) (h : Reachable s) :
    sumVals s.colmena.abejas_por_rol = (s.abejas.length : ℤ) :=
  (reachable_inv h).2.2.2.2.2

/-- Witness for the amended C1 at the two-step concrete trace. -/
theorem censo_cuenta_creadas_testigo :
    sumVals sysMuerta.colmena.abejas_por_rol = (sysMuerta.abejas.length : ℤ) :=
  censo_cuenta_creadas sysMuerta
    (Reachable.step
      (Reachable.step (Reachable.init 10 5 20 equilibrioPorDefecto)
        (Step.spawn _ "a" "recolectora" true (by decide)))
      (Step.muere _ "a" ⟨"recolectora", "recolectora", true, 0, 0⟩ (by decide) (by decide)))

/-- Claim C2, as stated, is false on the code: `alimentar_larva` first
consumes a nectar cell and only then checks the larva capacity, so on a
hive with one occupied cell and the larvae already at capacity it returns
false yet decrements `celdas_ocupadas` from 1 to 0. -/
theorem alimentar_larva_contraejemplo :
    (colLlena.alimentar_larva "n1").1 = false ∧
    colLlena.celdas_ocupadas = 1 ∧
    colLlena.larvas_alimentadas = 1 ∧
    colLlena.num_larvas = 1 ∧
    (colLlena.alimentar_larva "n1").2.celdas_ocupadas = 0 := by
  decide

/-- Claim C2 (amended): `alimentar_larva` returns true iff a cell is
occupied and the larvae are under capacity, and it is a strict no-op when
there is no stored nectar; but when it fails only because the larvae are at
capacity, the nectar cell has already been consumed (`celdas_ocupadas`
drops by one and the per-bee consumption stat moves) even though the call
returns false. -/
theorem alimentar_larva_caracterizacion (c : Colmena) (id : String) :
    ((c.alimentar_larva id).1 = true ↔
      (0 < c.celdas_ocupadas ∧ c.larvas_alimentadas < (c.num_larvas : ℤ))) ∧
    (¬ 0 < c.celdas_ocupadas → (c.alimentar_larva id).2 = c) ∧
    (0 < c.celdas_ocupadas → ¬ c.larvas_alimentadas < (c.num_larvas : ℤ) →
      (c.alimentar_larva id).1 = false ∧
      (c.alimentar_larva id).2.celdas_ocupadas = c.celdas_ocupadas - 1 ∧
      (c.alimentar_larva id).2.larvas_alimentadas = c.larvas_alimentadas ∧
      (c.alimentar_larva id).2.estadisticas id "nectar_consumido"
        = c.estadisticas id "nectar_consumido" + 1) := by
  rcases alimentar_larva_spec c id with ⟨hc, heq⟩ | ⟨hc, hl, heq⟩ | ⟨hc, hl, heq⟩
  · rw [heq]
    exact ⟨by simp [hc], fun _ => rfl, fun h _ => absurd h hc⟩
  · rw [heq]
    exact ⟨by simp [hc, hl], fun h => absurd hc h, fun _ h => absurd hl h⟩
  · rw [heq]
    refine ⟨by simp [hc, hl], fun h => absurd hc h, fun _ _ => ⟨rfl, rfl, rfl, ?_⟩⟩
    simp [statAdd]

/-- Witness for the amended C2 on the concrete full hive. -/
theorem alimentar_larva_caracterizacion_testigo :
    (colLlena.alimentar_larva "n1").1 = false ∧
    (colLlena.alimentar_larva "n1").2.celdas_ocupadas = colLlena.celdas_ocupadas - 1 ∧
    (colLlena.alimentar_larva "n1").2.larvas_alimentadas = colLlena.larvas_alimentadas ∧
    (colLlena.alimentar_larva "n1").2.estadisticas "n1" "nectar_consumido"
      = colLlena.estadisticas "n1" "nectar_consumido" + 1 :=
  (alimentar_larva_caracterizacion colLlena "n1").2.2 (by decide) (by decide)

/-- Claim C3, as stated, is false on the code: processing `muerte` does keep
the registry size (one id removed, one replacement added), but the Nurse
census is not unchanged — the dead nurse was never removed from the census
and the replacement's constructor registers one more, so it grows from 1
to 2. -/
theorem procesar_muerte_censo_contraejemplo :
    ("n1" ∈ sysNodriza.registro) ∧
    0 < sumVals sysNodriza.colmena.abejas_por_rol ∧
    (sysNodriza.procesar_mensaje (.muerte "nodriza" "n1") "n2").registro.length
      = sysNodriza.registro.length ∧
    getV sysNodriza.colmena.abejas_por_rol "nodriza" = 1 ∧
    getV (sysNodriza.procesar_mensaje (.muerte "nodriza" "n1") "n2").colmena.abejas_por_rol
      "nodriza" = 2 := by
  decide

/-- Claim C3 (amended): when the coordinator processes `Death{Nurse,x}` with
x in the registry and total population > 0, the registry keeps the same
number of entries (x removed, the replacement added), and the Nurse census
grows by exactly one, because the death never decremented it while the
replacement registers itself. -/
theorem procesar_muerte_registro_y_censo (s : Sistema) (x nuevoId : String)
    (hx : x ∈ s.registro) (_hpop : 0 < sumVals s.colmena.abejas_por_rol) :
    ((s.procesar_mensaje (.muerte "nodriza" x) nuevoId).registro.length
      = s.registro.length) ∧
    getV (s.procesar_mensaje (.muerte "nodriza" x) nuevoId).colmena.abejas_por_rol "nodriza"
      = getV s.colmena.abejas_por_rol "nodriza" + 1 := by
  have hlen : 0 < s.registro.length := List.length_pos_of_mem hx
  simp only [Sistema.procesar_mensaje, Sistema.crear_abeja]
  rw [if_pos (by simp)]
  constructor
  · dsimp only
    rw [List.length_append, List.length_erase_of_mem hx]
    simp only [List.length_cons, List.length_nil]
    omega
  · dsimp only [Colmena.registrar_abeja]
    rw [getV_updAdd_self]

/-- Witness for the amended C3 on the one-nurse system. -/
theorem procesar_muerte_registro_y_censo_testigo :
    ((sysNodriza.procesar_mensaje (.muerte "nodriza" "n1") "n2").registro.length
      = sysNodriza.registro.length) ∧
    getV (sysNodriza.procesar_mensaje (.muerte "nodriza" "n1") "n2").colmena.abejas_por_rol
        "nodriza"
      = getV sysNodriza.colmena.abejas_por_rol "nodriza" + 1 :=
  procesar_muerte_registro_y_censo sysNodriza "n1" "n2" (by decide) (by decide)

/-- Claim C4: in every reachable state `0 ≤ celdas_ocupadas ≤
capacidad_celdas` (the cell semaphore exactly complements the counter), and
Scenario A holds: from a fresh hive with capacity 10, twelve sequential
`almacenar_nectar` calls return true ten times then false twice, leaving
`celdas_ocupadas = 10`. -/
theorem celdas_ocupadas_acotadas :
    (∀ s : Sistema, Reachable s →
      0 ≤ s.colmena.celdas_ocupadas ∧
      s.colmena.celdas_ocupadas ≤ (s.colmena.capacidad_celdas : ℤ)) ∧
    ((almacenarSeq 12 (Colmena.init 10 5 20)).1 =
      [true, true, true, true, true, true, true, true, true, true, false, false] ∧
     (almacenarSeq 12 (Colmena.init 10 5 20)).2.celdas_ocupadas = 10) := by
  refine ⟨fun s h => ?_, by decide, by decide⟩
  obtain ⟨h1, h2, _, _, _, _⟩ := reachable_inv h
  exact ⟨h1, by omega⟩

/-- Witness for C4's invariant half at a freshly initialized system. -/
theorem celdas_ocupadas_acotadas_testigo :
    0 ≤ (Sistema.init 10 5 20 equilibrioPorDefecto).colmena.celdas_ocupadas ∧
    (Sistema.init 10 5 20 equilibrioPorDefecto).colmena.celdas_ocupadas
      ≤ ((Sistema.init 10 5 20 equilibrioPorDefecto).colmena.capacidad_celdas : ℤ) :=
  celdas_ocupadas_acotadas.1 _ (Reachable.init 10 5 20 equilibrioPorDefecto)

/-- Claim C5: `larvas_alimentadas` never exceeds `num_larvas` in any
reachable state, and Scenario B holds: with larva capacity 3 and five units
of stored nectar, five sequential `alimentar_larva` calls return true
exactly three times and false twice, leaving `larvas_alimentadas = 3`. -/
theorem larvas_acotadas :
    (∀ s : Sistema, Reachable s →
      s.colmena.larvas_alimentadas ≤ (s.colmena.num_larvas : ℤ)) ∧
    ((alimentarSeq 5 (almacenarSeq 5 (Colmena.init 10 5 3)).2).1 =
      [true, true, true, false, false] ∧
     (alimentarSeq 5 (almacenarSeq 5 (Colmena.init 10 5 3)).2).2.larvas_alimentadas = 3) := by
  refine ⟨fun s h => ?_, by decide, by decide⟩
  exact (reachable_inv h).2.2.2.1

/-- Witness for C5's invariant half at a freshly initialized system. -/
theorem larvas_acotadas_testigo :
    (Sistema.init 10 5 3 equilibrioPorDefecto).colmena.larvas_alimentadas
      ≤ ((Sistema.init 10 5 3 equilibrioPorDefecto).colmena.num_larvas : ℤ) :=
  larvas_acotadas.1 _ (Reachable.init 10 5 3 equilibrioPorDefecto)

/-- Claim C6: on the census Forager 4 / Storer 1 / Nurse 1 / Guard 1 (total
7) with the default ratios, the ideals are 3/2/2/1, the forager deviation
is +1/3 (surplus), the storer deviation is −1/2 (first minimal, deficit),
and one invocation of `reasignar_roles` converts exactly one forager to
storer, leaving the census 3/2/1/1. -/
theorem escenario_reequilibrio :
    sumVals sysC6.colmena.abejas_por_rol = 7 ∧
    getV sysC6.colmena.abejas_por_rol "recolectora" = 4 ∧
    getV sysC6.colmena.abejas_por_rol "almacenadora" = 1 ∧
    getV sysC6.colmena.abejas_por_rol "nodriza" = 1 ∧
    getV sysC6.colmena.abejas_por_rol "defensora" = 1 ∧
    calcular_roles_ideales sysC6.equilibrio_ideal 7 =
      [("recolectora", 3), ("almacenadora", 2), ("nodriza", 2), ("defensora", 1)] ∧
    tablaDiferencias sysC6.equilibrio_ideal sysC6.colmena.abejas_por_rol 7 =
      [("recolectora", .fin (Rat.divInt 1 3)), ("almacenadora", .fin (Rat.divInt (-1) 2)),
       ("nodriza", .fin (Rat.divInt (-1) 2)), ("defensora", .fin 0)] ∧
    sysC6.identificar_desequilibrio = (some "recolectora", some "almacenadora") ∧
    sysC6.reasignar_roles.1 = true ∧
    getV sysC6.reasignar_roles.2.colmena.abejas_por_rol "recolectora" = 3 ∧
    getV sysC6.reasignar_roles.2.colmena.abejas_por_rol "almacenadora" = 2 ∧
    getV sysC6.reasignar_roles.2.colmena.abejas_por_rol "nodriza" = 1 ∧
    getV sysC6.reasignar_roles.2.colmena.abejas_por_rol "defensora" = 1 := by
  decide

/-- Claim C7: when no deviation in the table computed by
`identificar_desequilibrio` exceeds +0.1 and none is below −0.1, the
rebalance invocation is a strict no-op: it returns false and the whole
system state — census and every agent's role included — is unchanged. -/
theorem reasignar_sin_desequilibrio (s : Sistema)
    (h : ∀ p ∈ tablaDiferencias s.equilibrio_ideal s.colmena.abejas_por_rol
        (sumVals s.colmena.abejas_por_rol),
      Dev.lt (.fin (mkRat 1 10)) p.2 = false ∧ Dev.lt p.2 (.fin (mkRat (-1) 10)) = false) :
    s.reasignar_roles = (false, s) := by
  have hid : s.identificar_desequilibrio = (none, none) := by
    by_cases ht : sumVals s.colmena.abejas_por_rol = 0
    · simp [Sistema.identificar_desequilibrio, ht]
    · simp only [Sistema.identificar_desequilibrio, if_neg ht]
      rcases hmax : argmaxDev (tablaDiferencias s.equilibrio_ideal s.colmena.abejas_por_rol
          (sumVals s.colmena.abejas_por_rol)) with _ | exc
      · simp [hmax]
      · rcases hmin : argminDev (tablaDiferencias s.equilibrio_ideal s.colmena.abejas_por_rol
            (sumVals s.colmena.abejas_por_rol)) with _ | defc
        · simp [hmax, hmin]
        · have hexc := h exc (argmaxDev_mem hmax)
          simp [hmax, hmin, hexc.1]
  simp [Sistema.reasignar_roles, hid]

/-- Witness for C7 on the perfectly balanced four-bee system. -/
theorem reasignar_sin_desequilibrio_testigo :
    sysEquilibrado.reasignar_roles = (false, sysEquilibrado) :=
  reasignar_sin_desequilibrio sysEquilibrado (by decide)

/-- Claim C8: `visitar_flor` returns 0 and leaves the hive untouched
whenever it is night, regardless of the flower quality; by day, for every
random draw and every quality, the returned amount lies in
`[0, capacidad_polen]` and the flowers-visited counters (global and
per-bee) each grow by exactly one. -/
theorem visitar_flor_caracterizacion (c : Colmena) (u : ℚ) (id : String) :
    (c.event_dia = false → c.visitar_flor u id = (0, c)) ∧
    (c.event_dia = true →
      0 ≤ (c.visitar_flor u id).1 ∧
      (c.visitar_flor u id).1 ≤ (c.capacidad_polen : ℤ) ∧
      (c.visitar_flor u id).2.flores_visitadas = c.flores_visitadas + 1 ∧
      (c.visitar_flor u id).2.estadisticas id "flores_visitadas"
        = c.estadisticas id "flores_visitadas" + 1) := by
  constructor
  · intro hd
    simp [Colmena.visitar_flor, hd]
  · intro hd
    have hd' : ¬ c.event_dia = false := by simp [hd]
    simp only [Colmena.visitar_flor, if_neg hd']
    refine ⟨le_max_left 0 _, ?_, ?_, ?_⟩
    · exact max_le (Int.natCast_nonneg _) (min_le_right _ _)
    · trivial
    · simp [statAdd]

/-- Witness for C8: night visit on a fresh hive switched to night, day
visit on the fresh (daytime) hive. -/
theorem visitar_flor_caracterizacion_testigo :
    ((Colmena.init 10 5 20).cambiar_ciclo_dia false).visitar_flor 3 "r1" =
      (0, (Colmena.init 10 5 20).cambiar_ciclo_dia false) ∧
    (0 ≤ ((Colmena.init 10 5 20).visitar_flor 3 "r1").1 ∧
     ((Colmena.init 10 5 20).visitar_flor 3 "r1").1
        ≤ ((Colmena.init 10 5 20).capacidad_polen : ℤ) ∧
     ((Colmena.init 10 5 20).visitar_flor 3 "r1").2.flores_visitadas
        = (Colmena.init 10 5 20).flores_visitadas + 1) :=
  ⟨(visitar_flor_caracterizacion _ 3 "r1").1 (by decide),
   ((visitar_flor_caracterizacion _ 3 "r1").2 (by decide)).1,
   ((visitar_flor_caracterizacion _ 3 "r1").2 (by decide)).2.1,
   ((visitar_flor_caracterizacion _ 3 "r1").2 (by decide)).2.2.1⟩

/-- Claim C9: on the Alive→Dead transition of a tracked bee, a death
message is appended to the queen's mailbox iff the stop event is not set at
that moment; with the stop event set, the hive state is untouched. -/
theorem mensaje_muerte_sii_no_fin (s : Sistema) (id : String) (a : AbejaData)
    (ha : lookupA s.abejas id = some a) :
    ((s.muere id).colmena.queue_reina
        = s.colmena.queue_reina ++ [Mensaje.muerte a.rol id]
      ↔ s.colmena.event_fin = false) ∧
    (s.colmena.event_fin = true → (s.muere id).colmena = s.colmena) := by
  simp only [Sistema.muere, ha]
  cases hf : s.colmena.event_fin with
  | false =>
      simp only [hf]
      constructor
      · simp [Colmena.enviar_mensaje_reina]
      · simp
  | true =>
      simp only [hf]
      constructor
      · simp
      · intro
        rfl

/-- Witness for C9 on the one-nurse system (stop event not set): the death
message is emitted. -/
theorem mensaje_muerte_sii_no_fin_testigo :
    (sysNodriza.muere "n1").colmena.queue_reina
      = sysNodriza.colmena.queue_reina ++ [Mensaje.muerte "nodriza" "n1"] :=
  (mensaje_muerte_sii_no_fin sysNodriza "n1" ⟨"nodriza", "nodriza", true, 0, 0⟩
    (by decide)).1.mpr (by decide)

/-- Claim C10: when a storer dequeues a batch and `almacenar_nectar` fails
(cell semaphore at 0), the batch is dropped — the queue keeps only the
remaining entries and `nectar_almacenado` does not move; consequently, in
every reachable state `nectar_almacenado ≤ nectar_recolectado`. -/
theorem almacenadora_pierde_lote :
    (∀ (s : Sistema) (id : String) (a : AbejaData) (cant : ℕ) (orig : String)
        (resto : List (ℕ × String)),
      lookupA s.abejas id = some a →
      s.colmena.queue_nectar = (cant, orig) :: resto →
      s.colmena.sem_celdas = 0 →
      (s.almacenadoraTrabaja id).colmena.queue_nectar = resto ∧
      (s.almacenadoraTrabaja id).colmena.nectar_almacenado
        = s.colmena.nectar_almacenado) ∧
    (∀ s : Sistema, Reachable s →
      s.colmena.nectar_almacenado ≤ s.colmena.nectar_recolectado) := by
  constructor
  · intro s id a cant orig resto ha hq hsem
    simp only [Sistema.almacenadoraTrabaja, ha, Colmena.obtener_nectar_cola, hq,
      Colmena.almacenar_nectar]
    rw [if_neg (by omega)]
    exact ⟨rfl, rfl⟩
  · intro s h
    have h5 := (reachable_inv h).2.2.2.2.1
    have hq : 0 ≤ nectarEnCola s.colmena := Nat.zero_le _
    omega

/-- Witness for C10: the zero-capacity system drops the forager's batch,
and the inequality holds at a fresh system. -/
theorem almacenadora_pierde_lote_testigo :
    ((sysSinCeldas.almacenadoraTrabaja "a1").colmena.queue_nectar = [] ∧
     (sysSinCeldas.almacenadoraTrabaja "a1").colmena.nectar_almacenado
        = sysSinCeldas.colmena.nectar_almacenado) ∧
    (Sistema.init 10 5 20 equilibrioPorDefecto).colmena.nectar_almacenado
      ≤ (Sistema.init 10 5 20 equilibrioPorDefecto).colmena.nectar_recolectado :=
  ⟨almacenadora_pierde_lote.1 sysSinCeldas "a1" ⟨"almacenadora", "almacenadora", true, 0, 0⟩
      3 "r1" [] (by decide) (by decide) (by decide),
   almacenadora_pierde_lote.2 _ (Reachable.init 10 5 20 equilibrioPorDefecto)⟩

end Practica2
